import Mathlib

/-!
Verification of the dog-age calculator (`src/script.js`).

The script is shallowly embedded here.  JavaScript numbers are modelled as
follows: all values the script compares and branches on (timestamps, the
elapsed-year quotient, the clamp threshold) are exact rationals, while the
transcendental human-age value `16 * Math.log(d) + 31` lives in `ℝ`
(`Real.log` is the mathematical `ln` the spec refers to; `ℝ` has no `NaN`
or `Infinity`, which the development notes where relevant).  The DOM and
`localStorage` are explicit state records; platform services the script
calls (`new Date(...)` parsing, the current instant, number-to-string
formatting of template literals) are fields of a `Platform` record.
-/

namespace DoggieAge

/-- The three `localStorage` keys of `LS_KEYS` in `script.js`. -/
def LS_BIRTH : String := "dog_birth_date_v1"

/-- Key `LS_KEYS.RESULT`. -/
def LS_RESULT : String := "dog_human_result_v1"

/-- Key `LS_KEYS.THEME`. -/
def LS_THEME : String := "dog_theme_v1"

/-- Function `dogAgeToHuman` (script.js lines 30–39): `null` for `dogYears <= 0`,
otherwise clamp inputs below `0.01` up to `0.01` and return
`16 * Math.log(dogYears) + 31`.  `null` is `none`. -/
noncomputable def dogAgeToHuman (dogYears : ℚ) : Option ℝ :=
  if dogYears ≤ 0 then none
  else
    let d : ℚ := if dogYears < 0.01 then 0.01 else dogYears
    some (16 * Real.log (d : ℝ) + 31)

/-! ### JSON string serialization

The script stores only strings, passed through `JSON.stringify` /
`JSON.parse`.  `JSON.stringify` on a string wraps it in double quotes and
escapes `"` and `\`; `JSON.parse` inverts this and throws on malformed
input, modelled by returning `none`. -/

/-- Escape one character of a JSON string body. -/
def escChar (c : Char) : List Char :=
  if c = '"' ∨ c = '\\' then ['\\', c] else [c]

/-- Effect of `JSON.stringify` applied to a string value. -/
def stringifyStr (s : String) : String :=
  String.mk ('"' :: (s.data.flatMap escChar ++ ['"']))

/-- Scan the body of a JSON string literal up to a closing quote that must
end the input; `none` on malformed input (unterminated string, bad escape,
trailing characters). -/
def scanStrBody : List Char → Option (List Char)
  | [] => none
  | c :: rest =>
    if c = '"' then if rest = [] then some [] else none
    else if c = '\\' then
      match rest with
      | [] => none
      | c2 :: rest2 =>
        if c2 = '"' ∨ c2 = '\\' then (scanStrBody rest2).map (fun l => c2 :: l)
        else none
    else (scanStrBody rest).map (fun l => c :: l)

/-- A JSON string literal: an opening quote followed by a body. -/
def parseJsonStr : List Char → Option (List Char)
  | [] => none
  | c :: rest => if c = '"' then scanStrBody rest else none

/-- Effect of `JSON.parse` restricted to string values (the only values this
application ever stores); `none` models a thrown `SyntaxError`. -/
def jsonParse (s : String) : Option String :=
  (parseJsonStr s.data).map String.mk

/-! ### localStorage -/

/-- The browser `localStorage`: a string key/value map, plus a flag saying
whether writes currently fail (quota exceeded, storage disabled, …). -/
structure Storage where
  data : String → Option String
  failing : Bool

/-- Operation `localStorage.setItem`: throws (modelled as `Except.error`) when the
store is failing, otherwise updates the key. -/
def setItem (st : Storage) (k v : String) : Except String Storage :=
  if st.failing then Except.error "QuotaExceededError"
  else Except.ok { st with data := fun q => if q = k then some v else st.data q }

/-- Function `saveToLS` (script.js lines 44–50): `JSON.stringify` the value and
`setItem` it; a thrown exception is caught (`console.warn`) and the
function returns normally with the store unchanged. -/
def saveToLS (st : Storage) (k : String) (value : String) : Storage :=
  match setItem st k (stringifyStr value) with
  | Except.ok st2 => st2
  | Except.error _ => st

/-- Function `readFromLS` (script.js lines 51–59): read the raw string; `null` or
`""` is falsy, giving `null`; otherwise `JSON.parse`, with a thrown parse
error caught (`console.warn`) and turned into `null`. -/
def readFromLS (st : Storage) (k : String) : Option String :=
  match st.data k with
  | none => none
  | some raw => if raw = "" then none else jsonParse raw

/-! ### The UI surface and the application state -/

/-- The parts of the DOM the script touches, together with the storage:
`dateInput.value`, `resultDiv.textContent`, the `data-theme` attribute of
the document root, `themeToggle.checked`, `switchText.textContent`. -/
structure AppState where
  dateInputValue : String
  resultText : String
  rootDataTheme : Option String
  toggleChecked : Bool
  switchText : String
  storage : Storage

/-- Function `displayResult` (script.js lines 65–68): write `text` into the result
div and persist it under the result key. -/
def displayResult (st : AppState) (text : String) : AppState :=
  { st with resultText := text
            storage := saveToLS st.storage LS_RESULT text }

/-- Platform services the script invokes: `new Date(val + 'T00:00:00')`
(returning the millisecond timestamp, or `none` when `getTime()` is
`NaN`), the current instant `new Date()` in milliseconds, and the
number-to-string conversions performed by the template literal on the two
`Number(x.toFixed(n))` values. -/
structure Platform where
  parseDate : String → Option ℚ
  now : ℚ
  fmtDog : ℚ → String
  fmtHuman : ℝ → String

/-- The elapsed years of script.js lines 92–93:
`(now - birth) / (1000*60*60*24*365.25)`. -/
def yearsOf (now birth : ℚ) : ℚ :=
  (now - birth) / (1000 * 60 * 60 * 24 * 365.25)

/-- Rounding `Number(years.toFixed(2))`: round to two decimal places. -/
def round2 (x : ℚ) : ℚ := (round (x * 100) : ℚ) / 100

/-- Rounding `Number(humanAge.toFixed(1))`: round to one decimal place. -/
noncomputable def round1R (x : ℝ) : ℝ := ((round (x * 10) : ℤ) : ℝ) / 10

/-- The success message template of script.js line 109. -/
noncomputable def successText (plat : Platform) (years : ℚ) (humanAge : ℝ) : String :=
  "狗狗現在大約 " ++ plat.fmtDog (round2 years) ++ " 歲的狗年齡，\n換算成人類大約是 "
    ++ plat.fmtHuman (round1R humanAge) ++ " 歲。"

/-- The error message of script.js lines 80 and 86. -/
def errInvalidDate : String := "請輸入有效的出生年月日"

/-- The error message of script.js line 96. -/
def errEarlier : String := "出生日期必須早於現在"

/-- The error message of script.js line 102. -/
def errUnreasonable : String := "計算失敗：輸入值可能不合理"

/-- Function `performCalculation` (script.js lines 77–112) on the current value
`val` of the date input.  The `humanAge === null` test is the `none`
branch of the match; `Number.isNaN(humanAge)` and `!isFinite(humanAge)`
have no counterpart in `ℝ`, which contains no `NaN` or infinities. -/
noncomputable def performCalculation (plat : Platform) (val : String)
    (st : AppState) : AppState :=
  if val = "" then displayResult st errInvalidDate
  else
    match plat.parseDate val with
    | none => displayResult st errInvalidDate
    | some birth =>
      let years := yearsOf plat.now birth
      if years ≤ 0 then displayResult st errEarlier
      else
        match dogAgeToHuman years with
        | none => displayResult st errUnreasonable
        | some humanAge => displayResult st (successText plat years humanAge)

/-- Function `applyTheme` (script.js lines 119–132): normalize anything other than
`"dark"` to `"light"`, set the root `data-theme` attribute, persist the
theme, and update the toggle and its label. -/
def applyTheme (st : AppState) (theme : String) : AppState :=
  let t := if theme = "dark" then theme else "light"
  let st1 := { st with rootDataTheme := some t
                       storage := saveToLS st.storage LS_THEME t }
  if t = "light" then
    { st1 with toggleChecked := false, switchText := "開燈" }
  else
    { st1 with toggleChecked := true, switchText := "關燈" }

/-- Lines 142–146 of `initFromStorage`: restore the stored birth date into
the date input, guarded by JavaScript truthiness (`""` restores nothing). -/
def restoreBirth (st : AppState) : AppState :=
  match readFromLS st.storage LS_BIRTH with
  | some b => if b = "" then st else { st with dateInputValue := b }
  | none => st

/-- Lines 149–152 of `initFromStorage`: restore the stored result text into
the result div, guarded by JavaScript truthiness. -/
def restoreResult (st : AppState) : AppState :=
  match readFromLS st.storage LS_RESULT with
  | some r => if r = "" then st else { st with resultText := r }
  | none => st

/-- Function `initFromStorage` (script.js lines 140–157): restore birth date and
result text, then apply the stored theme; `readFromLS(...) || 'light'`
defaults to `"light"` when the stored theme is absent or falsy. -/
def initFromStorage (st : AppState) : AppState :=
  let st2 := restoreResult (restoreBirth st)
  let storedTheme :=
    match readFromLS st2.storage LS_THEME with
    | some t => if t = "" then "light" else t
    | none => "light"
  applyTheme st2 storedTheme

/-! ### Concrete fixtures used to instantiate the theorems -/

/-- A fresh, working `localStorage` with no keys set. -/
def emptyStore : Storage := ⟨fun _ => none, false⟩

/-- A store whose writes fail (quota exceeded / storage disabled). -/
def failStore : Storage := ⟨fun _ => none, true⟩

/-- A store holding a malformed (non-JSON) raw string under the result
key. -/
def corruptStore : Storage :=
  ⟨fun q => if q = LS_RESULT then some "oops" else none, false⟩

/-- A fresh page: empty fields, working storage. -/
def freshApp : AppState := ⟨"", "", none, false, "", emptyStore⟩

/-- A platform whose date parser always fails (`new Date` gives `NaN`). -/
def noDatePlatform : Platform := ⟨fun _ => none, 1, fun _ => "", fun _ => ""⟩

/-- A platform where every date string parses to timestamp `0` and the
current instant is one millisecond later. -/
def fixedPlatform : Platform := ⟨fun _ => some 0, 1, fun _ => "1", fun _ => "31"⟩

/-! ### Round-trip lemmas for the serialization layer -/

lemma scanStrBody_escape (l : List Char) :
    scanStrBody (l.flatMap escChar ++ ['"']) = some l := by
  induction l with
  | nil => simp [scanStrBody]
  | cons c t ih =>
    by_cases hc : c = '"' ∨ c = '\\'
    · simp [escChar, hc, scanStrBody, ih]
    · rcases not_or.mp hc with ⟨h1, h2⟩
      simp only [List.flatMap_cons, escChar, if_neg hc, List.singleton_append,
        List.cons_append, List.append_assoc]
      rw [scanStrBody.eq_def]
      simp [h1, h2, ih]

lemma jsonParse_stringifyStr (s : String) :
    jsonParse (stringifyStr s) = some s := by
  simp [jsonParse, stringifyStr, parseJsonStr, scanStrBody_escape]

lemma stringifyStr_ne_empty (s : String) : stringifyStr s ≠ "" := by
  intro h
  have h2 := congrArg String.data h
  simp [stringifyStr] at h2

lemma readFromLS_saveToLS_self (st : Storage) (k v : String)
    (h : st.failing = false) :
    readFromLS (saveToLS st k v) k = some v := by
  simp [saveToLS, setItem, h, readFromLS, jsonParse_stringifyStr,
    stringifyStr_ne_empty]

lemma saveToLS_data_ne (st : Storage) (k v q : String) (h : q ≠ k) :
    (saveToLS st k v).data q = st.data q := by
  cases hf : st.failing <;> simp [saveToLS, setItem, hf, h]

lemma saveToLS_failing (st : Storage) (k v : String) :
    (saveToLS st k v).failing = st.failing := by
  cases hf : st.failing <;> simp [saveToLS, setItem, hf]

/-! ### C1–C3: the age converter -/

/-- C1: for every `elapsedYears > 0.01`, `dogAgeToHuman` returns exactly
`16 * ln(elapsedYears) + 31`. -/
theorem dogAgeToHuman_eq_formula (y : ℚ) (h : 0.01 < y) :
    dogAgeToHuman y = some (16 * Real.log (y : ℝ) + 31) := by
  have h0 : ¬ y ≤ 0 := not_le.mpr (lt_trans (by norm_num) h)
  have h1 : ¬ y < 0.01 := not_lt.mpr (le_of_lt h)
  simp [dogAgeToHuman, h0, h1]

/-- Witness for C1 at `elapsedYears = 1`. -/
theorem dogAgeToHuman_eq_formula_witness :
    (0.01 : ℚ) < 1 ∧ dogAgeToHuman 1 = some (16 * Real.log ((1 : ℚ) : ℝ) + 31) :=
  ⟨by norm_num, dogAgeToHuman_eq_formula 1 (by norm_num)⟩

/-- C2: for every `elapsedYears ≤ 0`, `dogAgeToHuman` returns `none`
(JavaScript `null`, the "not computable" signal), never a number. -/
theorem dogAgeToHuman_nonpos_none (y : ℚ) (h : y ≤ 0) :
    dogAgeToHuman y = none := by
  simp [dogAgeToHuman, h]

/-- Witness for C2 at `elapsedYears = 0`. -/
theorem dogAgeToHuman_nonpos_none_witness :
    (0 : ℚ) ≤ 0 ∧ dogAgeToHuman 0 = none :=
  ⟨le_refl 0, dogAgeToHuman_nonpos_none 0 (le_refl 0)⟩

/-- C3: for every `0 < elapsedYears < 0.01`, `dogAgeToHuman` returns the
same value as at `0.01`: the input is clamped to `0.01` before the
logarithmic formula is applied. -/
theorem dogAgeToHuman_clamp (y : ℚ) (h0 : 0 < y) (h1 : y < 0.01) :
    dogAgeToHuman y = dogAgeToHuman 0.01 := by
  have ha : ¬ y ≤ 0 := not_le.mpr h0
  have hb : ¬ ((0.01 : ℚ) ≤ 0) := by norm_num
  have hc : ¬ ((0.01 : ℚ) < 0.01) := lt_irrefl _
  simp [dogAgeToHuman, ha, hb, hc, h1]

/-- Witness for C3 at `elapsedYears = 1/200 = 0.005`. -/
theorem dogAgeToHuman_clamp_witness :
    (0 : ℚ) < 1/200 ∧ (1/200 : ℚ) < 0.01 ∧
      dogAgeToHuman (1/200) = dogAgeToHuman 0.01 :=
  ⟨by norm_num, by norm_num, dogAgeToHuman_clamp (1/200) (by norm_num) (by norm_num)⟩

/-! ### C7, C8: the persistent store -/

/-- C7: store operations never raise to their caller.  `saveToLS` catches
an underlying-store failure and returns normally (with the store
unchanged); `readFromLS` returns `none` on a missing key and `none` on a
present-but-malformed raw value instead of propagating the parse
exception. -/
theorem store_ops_never_raise :
    (∀ (st : Storage) (k v : String), st.failing = true → saveToLS st k v = st) ∧
    (∀ (st : Storage) (k : String), st.data k = none → readFromLS st k = none) ∧
    (∀ (st : Storage) (k raw : String), st.data k = some raw →
      jsonParse raw = none → readFromLS st k = none) := by
  refine ⟨fun st k v h => ?_, fun st k h => ?_, fun st k raw h hp => ?_⟩
  · simp [saveToLS, setItem, h]
  · simp [readFromLS, h]
  · by_cases hr : raw = "" <;> simp [readFromLS, h, hr, hp]

/-- Witness for C7: a failing write leaves the store as is, a never-written
key loads as absent, and a malformed stored value loads as absent. -/
theorem store_ops_never_raise_witness :
    saveToLS failStore LS_THEME "light" = failStore ∧
      readFromLS emptyStore LS_BIRTH = none ∧
      readFromLS corruptStore LS_RESULT = none :=
  ⟨store_ops_never_raise.1 failStore LS_THEME "light" rfl,
   store_ops_never_raise.2.1 emptyStore LS_BIRTH rfl,
   store_ops_never_raise.2.2 corruptStore LS_RESULT "oops" (by simp [corruptStore])
     (by decide)⟩

/-- C8: when the underlying store is not failing, `saveToLS` followed by
`readFromLS` on the same key returns exactly the value saved (round-trip
through `JSON.stringify` / `JSON.parse`). -/
theorem store_roundtrip (st : Storage) (k v : String)
    (h : st.failing = false) :
    readFromLS (saveToLS st k v) k = some v :=
  readFromLS_saveToLS_self st k v h

/-- Witness for C8: round-trip of a concrete value through a fresh store. -/
theorem store_roundtrip_witness :
    emptyStore.failing = false ∧
      readFromLS (saveToLS emptyStore LS_RESULT "hello \"world\"\\") LS_RESULT
        = some "hello \"world\"\\" :=
  ⟨rfl, store_roundtrip emptyStore LS_RESULT "hello \"world\"\\" rfl⟩

/-! ### C4, C5: the calculation flow -/

lemma displayResult_persists (st : AppState) (t : String)
    (h : st.storage.failing = false) :
    readFromLS (displayResult st t).storage LS_RESULT
      = some ((displayResult st t).resultText) :=
  readFromLS_saveToLS_self st.storage LS_RESULT t h

/-- C4: every branch of `performCalculation` — the empty-input branch, the
unparsable-date branch, the `elapsed <= 0` branch, the numeric-failure
branch and the success branch — goes through `displayResult`, which
persists the displayed message under the result key; so whenever the
underlying store is working, the stored result text equals the displayed
text after any calculation attempt. -/
theorem performCalculation_persists_displayed (plat : Platform)
    (val : String) (st : AppState) (h : st.storage.failing = false) :
    readFromLS (performCalculation plat val st).storage LS_RESULT
      = some ((performCalculation plat val st).resultText) := by
  unfold performCalculation
  by_cases hv : val = ""
  · simpa [hv] using displayResult_persists st errInvalidDate h
  · simp only [if_neg hv]
    cases hp : plat.parseDate val with
    | none => exact displayResult_persists st errInvalidDate h
    | some birth =>
      by_cases hy : yearsOf plat.now birth ≤ 0
      · simp only [if_pos hy]
        exact displayResult_persists st errEarlier h
      · simp only [if_neg hy]
        cases hd : dogAgeToHuman (yearsOf plat.now birth) with
        | none => exact displayResult_persists st errUnreasonable h
        | some hAge => exact displayResult_persists st _ h

/-- Witness for C4: a fresh page, empty input. -/
theorem performCalculation_persists_displayed_witness :
    freshApp.storage.failing = false ∧
      readFromLS (performCalculation fixedPlatform "" freshApp).storage LS_RESULT
        = some ((performCalculation fixedPlatform "" freshApp).resultText) :=
  ⟨rfl, performCalculation_persists_displayed fixedPlatform "" freshApp rfl⟩

/-- C5: the empty-input branch and the unparsable-date branch of
`performCalculation` produce the identical "please enter a valid birth
date" error message as the result text. -/
theorem performCalculation_invalid_date_message :
    (∀ (plat : Platform) (st : AppState),
      (performCalculation plat "" st).resultText = errInvalidDate) ∧
    (∀ (plat : Platform) (val : String) (st : AppState), val ≠ "" →
      plat.parseDate val = none →
      (performCalculation plat val st).resultText = errInvalidDate) := by
  constructor
  · intro plat st
    simp [performCalculation, displayResult]
  · intro plat val st hv hp
    simp [performCalculation, hv, hp, displayResult]

/-- Witness for C5: empty input and the unparsable input `"not-a-date"`
on a platform whose date parser fails. -/
theorem performCalculation_invalid_date_message_witness :
    (performCalculation noDatePlatform "" freshApp).resultText = errInvalidDate ∧
      ("not-a-date" : String) ≠ "" ∧
      noDatePlatform.parseDate "not-a-date" = none ∧
      (performCalculation noDatePlatform "not-a-date" freshApp).resultText
        = errInvalidDate :=
  ⟨performCalculation_invalid_date_message.1 noDatePlatform freshApp,
   by decide, rfl,
   performCalculation_invalid_date_message.2 noDatePlatform "not-a-date" freshApp
     (by decide) rfl⟩

/-! ### C6: the theme controller -/

/-- C6: `applyTheme` normalizes any value other than `"dark"` to
`"light"` (so the result is the same as applying `"light"`), sets the
normalized value as the root `data-theme` attribute, persists it under the
theme key (when the store is working), and leaves the toggle checked
exactly when the normalized theme is `"dark"`. -/
theorem applyTheme_spec (st : AppState) (theme : String)
    (h : st.storage.failing = false) :
    (theme ≠ "dark" → applyTheme st theme = applyTheme st "light") ∧
    (applyTheme st theme).rootDataTheme
      = some (if theme = "dark" then "dark" else "light") ∧
    readFromLS (applyTheme st theme).storage LS_THEME
      = some (if theme = "dark" then "dark" else "light") ∧
    ((applyTheme st theme).toggleChecked = true ↔
      (if theme = "dark" then "dark" else "light") = "dark") := by
  by_cases ht : theme = "dark"
  · subst ht
    refine ⟨fun hc => absurd rfl hc, ?_, ?_, ?_⟩ <;>
      simp [applyTheme, readFromLS_saveToLS_self _ _ _ h]
  · refine ⟨fun _ => ?_, ?_, ?_, ?_⟩ <;>
      simp [applyTheme, ht, readFromLS_saveToLS_self _ _ _ h]

/-- Witness for C6 at the out-of-range choice `"blue"`. -/
theorem applyTheme_spec_witness :
    freshApp.storage.failing = false ∧
      (("blue" : String) ≠ "dark" → applyTheme freshApp "blue" = applyTheme freshApp "light") ∧
      (applyTheme freshApp "blue").rootDataTheme
        = some (if ("blue" : String) = "dark" then "dark" else "light") ∧
      readFromLS (applyTheme freshApp "blue").storage LS_THEME
        = some (if ("blue" : String) = "dark" then "dark" else "light") ∧
      ((applyTheme freshApp "blue").toggleChecked = true ↔
        (if ("blue" : String) = "dark" then "dark" else "light") = "dark") :=
  ⟨rfl, applyTheme_spec freshApp "blue" rfl⟩

/-! ### C9: session restore -/

lemma restoreBirth_storage (st : AppState) :
    (restoreBirth st).storage = st.storage := by
  unfold restoreBirth
  cases readFromLS st.storage LS_BIRTH with
  | none => rfl
  | some b => by_cases hb : b = "" <;> simp [hb]

lemma restoreBirth_resultText (st : AppState) :
    (restoreBirth st).resultText = st.resultText := by
  unfold restoreBirth
  cases readFromLS st.storage LS_BIRTH with
  | none => rfl
  | some b => by_cases hb : b = "" <;> simp [hb]

lemma restoreResult_storage (st : AppState) :
    (restoreResult st).storage = st.storage := by
  unfold restoreResult
  cases readFromLS st.storage LS_RESULT with
  | none => rfl
  | some r => by_cases hr : r = "" <;> simp [hr]

lemma restoreResult_resultText_of_some (st : AppState) (r : String)
    (h : readFromLS st.storage LS_RESULT = some r) (hr : r ≠ "") :
    (restoreResult st).resultText = r := by
  unfold restoreResult
  rw [h]
  simp [hr]

lemma restoreResult_resultText_of_falsy (st : AppState)
    (h : readFromLS st.storage LS_RESULT = none ∨
      readFromLS st.storage LS_RESULT = some "") :
    (restoreResult st).resultText = st.resultText := by
  unfold restoreResult
  rcases h with h | h <;> simp [h]

lemma applyTheme_storage (st : AppState) (theme : String) :
    (applyTheme st theme).storage
      = saveToLS st.storage LS_THEME (if theme = "dark" then theme else "light") := by
  simp only [applyTheme]
  split <;> split <;> rfl

lemma applyTheme_resultText (st : AppState) (theme : String) :
    (applyTheme st theme).resultText = st.resultText := by
  simp only [applyTheme]
  split <;> split <;> rfl

/-- C9: `initFromStorage` never writes the birth-date or result-text keys
(its only write is the theme key, through `applyTheme`); a stored
non-empty result text is written to the result display verbatim; and when
no stored result is present no calculation runs — the result display is
left exactly as it was, even if a stored birth date exists. -/
theorem initFromStorage_restore_spec (st : AppState) :
    (initFromStorage st).storage.data LS_BIRTH = st.storage.data LS_BIRTH ∧
    (initFromStorage st).storage.data LS_RESULT = st.storage.data LS_RESULT ∧
    (∀ r, readFromLS st.storage LS_RESULT = some r → r ≠ "" →
      (initFromStorage st).resultText = r) ∧
    ((readFromLS st.storage LS_RESULT = none ∨
      readFromLS st.storage LS_RESULT = some "") →
      (initFromStorage st).resultText = st.resultText) := by
  have hs2 : (restoreResult (restoreBirth st)).storage = st.storage := by
    rw [restoreResult_storage, restoreBirth_storage]
  refine ⟨?_, ?_, ?_, ?_⟩
  · show (applyTheme _ _).storage.data LS_BIRTH = _
    rw [applyTheme_storage,
      saveToLS_data_ne _ _ _ _ (by decide : LS_BIRTH ≠ LS_THEME), hs2]
  · show (applyTheme _ _).storage.data LS_RESULT = _
    rw [applyTheme_storage,
      saveToLS_data_ne _ _ _ _ (by decide : LS_RESULT ≠ LS_THEME), hs2]
  · intro r h hr
    show (applyTheme _ _).resultText = r
    rw [applyTheme_resultText]
    refine restoreResult_resultText_of_some _ r ?_ hr
    rw [restoreBirth_storage]
    exact h
  · intro h
    show (applyTheme _ _).resultText = _
    rw [applyTheme_resultText,
      restoreResult_resultText_of_falsy _ (by rw [restoreBirth_storage]; exact h),
      restoreBirth_resultText]

/-- Witness for C9 on a fresh page (no stored result). -/
theorem initFromStorage_restore_spec_witness :
    (initFromStorage freshApp).storage.data LS_BIRTH
        = freshApp.storage.data LS_BIRTH ∧
      (initFromStorage freshApp).storage.data LS_RESULT
        = freshApp.storage.data LS_RESULT ∧
      (readFromLS freshApp.storage LS_RESULT = none ∨
        readFromLS freshApp.storage LS_RESULT = some "") ∧
      (initFromStorage freshApp).resultText = freshApp.resultText :=
  ⟨(initFromStorage_restore_spec freshApp).1,
   (initFromStorage_restore_spec freshApp).2.1,
   Or.inl rfl,
   (initFromStorage_restore_spec freshApp).2.2.2 (Or.inl rfl)⟩

/-! ### C10: positivity implies a successful conversion -/

/-- C10: for every `elapsedYears > 0`, `dogAgeToHuman` returns a value
(it is never `null`; in the real-number model there is no `NaN` or
infinity), so once `performCalculation` has passed the `elapsed <= 0`
guard, the "calculation failed" branch is unreachable: the result text is
the success message. -/
theorem convert_pos_success :
    (∀ y : ℚ, 0 < y → (dogAgeToHuman y).isSome = true) ∧
    (∀ (plat : Platform) (val : String) (st : AppState) (birth : ℚ),
      val ≠ "" → plat.parseDate val = some birth → 0 < plat.now - birth →
      ∃ hAge : ℝ, dogAgeToHuman (yearsOf plat.now birth) = some hAge ∧
        (performCalculation plat val st).resultText
          = successText plat (yearsOf plat.now birth) hAge) := by
  constructor
  · intro y hy
    simp [dogAgeToHuman, not_le.mpr hy]
  · intro plat val st birth hv hp hpos
    have hy : 0 < yearsOf plat.now birth := div_pos hpos (by norm_num)
    have hne : ¬ yearsOf plat.now birth ≤ 0 := not_le.mpr hy
    cases hd : dogAgeToHuman (yearsOf plat.now birth) with
    | none => exact absurd hd (by simp [dogAgeToHuman, hne])
    | some hAge =>
      exact ⟨hAge, rfl, by simp [performCalculation, hv, hp, hne, hd, displayResult]⟩

/-- Witness for C10: a one-millisecond-old dog on `fixedPlatform`. -/
theorem convert_pos_success_witness :
    (dogAgeToHuman 1).isSome = true ∧
      ∃ hAge : ℝ, dogAgeToHuman (yearsOf fixedPlatform.now 0) = some hAge ∧
        (performCalculation fixedPlatform "2020-01-01" freshApp).resultText
          = successText fixedPlatform (yearsOf fixedPlatform.now 0) hAge :=
  ⟨convert_pos_success.1 1 (by norm_num),
   convert_pos_success.2 fixedPlatform "2020-01-01" freshApp 0 (by decide) rfl
     (by norm_num [fixedPlatform])⟩

end DoggieAge
